import Mathlib

/-!
Verification of the chat bridge of `v0-agent-panel`.

The development shallowly embeds the two request handlers of the repository:

* `src/app/api/chat/route.ts` — the streaming chat route (`POST`): JSON body
  parsing, `messages` validation, environment-based provider selection
  (`anthropic` vs `claudeCode`), the `streamText` consumption with its
  `onFinish` telemetry hook, and the outer `try/catch` error envelope.
* `src/app/workflows/chat-workflow.ts` — `chatWorkflow`, `generateResponse`
  and `logMetrics`, together with the workflow route handler that wraps them.

JavaScript values relevant to the handlers (the parsed request body) are
modelled by `JsValue` with JS truthiness and `Array.isArray`; the upstream
LLM provider is modelled as a finite list of stream events (text chunks,
possibly terminated early by an error) plus the completion metadata it would
report (`finishReason`, token usage).
-/

namespace AgentPanel

/-- A JavaScript value as it can come out of `req.json()` (plus `undefined`,
which property access can produce). Objects are association lists with the
keys already deduplicated, as `JSON.parse` yields. -/
inductive JsValue where
  | null
  | undefined
  | bool (b : Bool)
  | num (n : Int)
  | str (s : String)
  | arr (elems : List JsValue)
  | obj (fields : List (String × JsValue))
deriving Repr

/-- JS truthiness of a value, as tested by `!messages`. -/
def JsValue.truthy : JsValue → Bool
  | .null => false
  | .undefined => false
  | .bool b => b
  | .num n => n != 0
  | .str s => s != ""
  | .arr _ => true
  | .obj _ => true

/-- The `Array.isArray` test. -/
def JsValue.isArray : JsValue → Bool
  | .arr _ => true
  | _ => false

/-- Property lookup on an object field list; absent keys give `undefined`. -/
def lookupField (fields : List (String × JsValue)) (key : String) : JsValue :=
  match fields with
  | [] => .undefined
  | (k, v) :: rest => if k = key then v else lookupField rest key

/-- The destructuring `const { messages } = body`: throws a TypeError on
`null`/`undefined`, reads the property on objects, and yields `undefined`
on every other value (primitives have no own `messages` property). -/
def destructureMessages : JsValue → Except String JsValue
  | .null => .error "Cannot destructure property messages of null"
  | .undefined => .error "Cannot destructure property messages of undefined"
  | .obj fields => .ok (lookupField fields "messages")
  | _ => .ok .undefined

/-- The environment the route reads: `process.env.VERCEL_ENV === "production"`
and the optional `process.env.ANTHROPIC_API_KEY`. -/
structure Env where
  vercelEnvProduction : Bool
  anthropicApiKey : Option String
deriving Repr, DecidableEq

/-- Truthiness of the `ANTHROPIC_API_KEY` environment variable: unset and the
empty string are both falsy in `isProduction && apiKey`. -/
def keyTruthy : Option String → Bool
  | none => false
  | some s => s != ""

/-- The configured provider+model pair the route builds. The hosted handle
carries the credential the route passes in its options object; the local CLI
handle carries no credential at all. -/
inductive ModelHandle where
  | anthropicModel (modelId : String) (apiKey : Option String)
  | claudeCodeModel (modelId : String) (systemPromptPreset : String)
      (settingSources : List String)
deriving Repr, DecidableEq

/-- The credential embedded in a handle, if any. -/
def ModelHandle.credential : ModelHandle → Option String
  | .anthropicModel _ key => key
  | .claudeCodeModel _ _ _ => none

/-- Outcome of the provider-selection branch of the route. -/
inductive SelectorOutcome where
  | ok (model : ModelHandle)
  | authenticationError
  | configurationError
deriving Repr, DecidableEq

/-- The `details` string of the configuration-error response in the source. -/
def configErrorDetails : String :=
  "AI Agent requires authentication. Please add ANTHROPIC_API_KEY to your Vercel environment variables, or get a free API key at https://console.anthropic.com/settings/keys (works alongside your Claude Max subscription)."

/-- The `details` string of the authentication-error response in the source. -/
def authErrorDetails : String :=
  "Please run \"claude login\" in your terminal to authenticate with Claude Code CLI."

/-- The provider-selection logic of the route body: production with a truthy
key builds the hosted model, non-production tries to build the local CLI
model (`claudeCodeConstructs` says whether that constructor call succeeds or
throws), and production without a key is a configuration error. -/
def selectModel (isProduction : Bool) (apiKey : Option String)
    (claudeCodeConstructs : Bool) : SelectorOutcome :=
  if isProduction && keyTruthy apiKey then
    .ok (.anthropicModel "claude-sonnet-4-5-20250929" apiKey)
  else if !isProduction then
    if claudeCodeConstructs then
      .ok (.claudeCodeModel "sonnet" "claude_code" ["user", "project", "local"])
    else
      .authenticationError
  else
    .configurationError

/-- Token usage as reported by the provider on completion. -/
structure Usage where
  promptTokens : Nat
  completionTokens : Nat
  totalTokens : Nat
deriving Repr, DecidableEq

/-- One event of the provider stream: a text chunk, or an error raised
mid-stream. -/
inductive StreamEvent where
  | chunk (text : String)
  | streamError (message : String)
deriving Repr, DecidableEq

/-- One whole provider interaction: the ordered events it emits, and the
completion metadata it reports if it finishes cleanly. -/
structure ProviderRun where
  events : List StreamEvent
  finishReason : String
  usage : Usage
deriving Repr, DecidableEq

/-- One telemetry record, as logged by `onFinish` in the route or by
`logMetrics` in the workflow. -/
structure Telemetry where
  textLength : Nat
  finishReason : Option String
  usage : Option Usage
deriving Repr, DecidableEq

/-- A response body: a streamed text body, a JSON error envelope with `error`
and `details`, a JSON error with only an `error` field (the workflow route
validation reply), or the workflow route success JSON. -/
inductive ResponseBody where
  | stream (text : String)
  | errorJson (error : String) (details : String)
  | errorOnlyJson (error : String)
  | okJson (response : String) (finishReason : Option String) (usage : Option Usage)
deriving Repr, DecidableEq

/-- An HTTP response: status and body. -/
structure Response where
  status : Nat
  body : ResponseBody
deriving Repr, DecidableEq

/-- State of the loop that drives the provider stream: the chunks forwarded
to the caller so far (in order), the accumulated text, and whether the
stream closed cleanly. -/
structure StreamOutcome where
  delivered : List String
  accumulatedText : String
  completedCleanly : Bool
deriving Repr, DecidableEq

/-- Driving the provider stream: each arriving chunk is forwarded to the
caller and appended to the accumulator; an error event ends consumption at
once, with nothing further forwarded. -/
def consumeStream (acc : String) (sent : List String) :
    List StreamEvent → StreamOutcome
  | [] => ⟨sent, acc, true⟩
  | .chunk s :: rest => consumeStream (acc ++ s) (sent ++ [s]) rest
  | .streamError _ :: _ => ⟨sent, acc, false⟩

/-- Everything observable about one invocation of the route handler: the
response, the chunks streamed to the caller, the telemetry records logged,
the model handle constructed (if any), the `messages` value handed to
`streamText` (if it was called), and whether the data stream was terminated
by a mid-stream provider error. -/
structure HandlerResult where
  response : Response
  delivered : List String
  telemetry : List Telemetry
  modelUsed : Option ModelHandle
  messagesSent : Option JsValue
  streamErrored : Bool
deriving Repr

/-- The `POST` handler of `src/app/api/chat/route.ts`.

Inputs model the ambient effects: `parseResult` is what `req.json()` does
(throws or yields a value), `env` the two environment variables, in
`claudeCodeConstructs` whether the `claudeCode(...)` constructor call throws,
in `streamTextThrows` a synchronous exception of `streamText` before the
response is returned (caught by the outer catch), and `run` the provider
stream consumed by the returned data-stream response. -/
def POST (parseResult : Except String JsValue) (env : Env)
    (claudeCodeConstructs : Bool) (streamTextThrows : Option String)
    (run : ProviderRun) : HandlerResult :=
  match parseResult with
  | .error msg =>
    { response := ⟨500, .errorJson "Failed to process chat request" msg⟩,
      delivered := [], telemetry := [], modelUsed := none,
      messagesSent := none, streamErrored := false }
  | .ok body =>
    match destructureMessages body with
    | .error msg =>
      { response := ⟨500, .errorJson "Failed to process chat request" msg⟩,
        delivered := [], telemetry := [], modelUsed := none,
        messagesSent := none, streamErrored := false }
    | .ok messages =>
      if !messages.truthy || !messages.isArray then
        { response := ⟨400, .errorJson "Invalid request" "Messages array is required"⟩,
          delivered := [], telemetry := [], modelUsed := none,
          messagesSent := none, streamErrored := false }
      else
        match selectModel env.vercelEnvProduction env.anthropicApiKey
            claudeCodeConstructs with
        | .authenticationError =>
          { response := ⟨500, .errorJson "Authentication error" authErrorDetails⟩,
            delivered := [], telemetry := [], modelUsed := none,
            messagesSent := none, streamErrored := false }
        | .configurationError =>
          { response := ⟨500, .errorJson "Configuration error" configErrorDetails⟩,
            delivered := [], telemetry := [], modelUsed := none,
            messagesSent := none, streamErrored := false }
        | .ok model =>
          match streamTextThrows with
          | some msg =>
            { response := ⟨500, .errorJson "Failed to process chat request" msg⟩,
              delivered := [], telemetry := [], modelUsed := some model,
              messagesSent := some messages, streamErrored := false }
          | none =>
            let outcome := consumeStream "" [] run.events
            if outcome.completedCleanly then
              { response := ⟨200, .stream outcome.accumulatedText⟩,
                delivered := outcome.delivered,
                telemetry := [⟨outcome.accumulatedText.length,
                  some run.finishReason, some run.usage⟩],
                modelUsed := some model, messagesSent := some messages,
                streamErrored := false }
            else
              { response := ⟨200, .stream outcome.accumulatedText⟩,
                delivered := outcome.delivered, telemetry := [],
                modelUsed := some model, messagesSent := some messages,
                streamErrored := true }

/-- Result of `generateResponse` in the workflow: accumulated text plus the
metadata captured by its `onFinish` callback (still unset if the stream
errored before finishing). -/
structure GenerateResult where
  text : String
  finishReason : Option String
  usage : Option Usage
deriving Repr, DecidableEq

/-- The `for await` loop of `generateResponse`: append each chunk to
`fullText`; an error event makes the iteration throw. -/
def generateLoop (fullText : String) : List StreamEvent → Except String String
  | [] => .ok fullText
  | .chunk s :: rest => generateLoop (fullText ++ s) rest
  | .streamError msg :: _ => .error msg

/-- The `generateResponse` step of `src/app/workflows/chat-workflow.ts`:
consume the text stream, and return the text with the metadata `onFinish`
recorded on clean completion; a mid-stream error propagates. -/
def generateResponse (run : ProviderRun) : Except String GenerateResult :=
  match generateLoop "" run.events with
  | .error msg => .error msg
  | .ok text => .ok ⟨text, some run.finishReason, some run.usage⟩

/-- The value `chatWorkflow` resolves with on success. -/
structure WorkflowValue where
  success : Bool
  response : String
  finishReason : Option String
  usage : Option Usage
deriving Repr, DecidableEq

/-- Everything observable about one `chatWorkflow` call: its result (or the
exception it rethrows), the telemetry `logMetrics` logged, and the model it
selected (if selection completed). -/
structure WorkflowOutput where
  result : Except String WorkflowValue
  telemetry : List Telemetry
  modelUsed : Option ModelHandle
deriving Repr

/-- The `chatWorkflow` function: select the model by `NODE_ENV` (the dynamic
module load and constructor may fail in development, and there is no
try/catch here, so that exception propagates), generate the response, then
log metrics once. -/
def chatWorkflow (isDevelopment : Bool) (_messages : JsValue)
    (claudeCodeConstructs : Bool) (run : ProviderRun) : WorkflowOutput :=
  if isDevelopment && !claudeCodeConstructs then
    { result := .error "claudeCode provider construction failed",
      telemetry := [], modelUsed := none }
  else
    let model : ModelHandle :=
      if isDevelopment then
        .claudeCodeModel "sonnet" "claude_code" ["user", "project", "local"]
      else
        .anthropicModel "claude-sonnet-4-5-20250929" none
    match generateResponse run with
    | .error msg => { result := .error msg, telemetry := [], modelUsed := some model }
    | .ok gen =>
      { result := .ok ⟨true, gen.text, gen.finishReason, gen.usage⟩,
        telemetry := [⟨gen.text.length, gen.finishReason, gen.usage⟩],
        modelUsed := some model }

/-- Observable outcome of the workflow route handler. -/
structure WorkflowHandlerResult where
  response : Response
  telemetry : List Telemetry
  errorLogged : Bool
deriving Repr

/-- The workflow route `POST`: parse, destructure, validate with the same
`!messages || !Array.isArray(messages)` check (replying with an error-only
JSON body), run `chatWorkflow`, and map any thrown error to a 500
`Internal server error` envelope while logging it. -/
def workflowPOST (parseResult : Except String JsValue) (isDevelopment : Bool)
    (claudeCodeConstructs : Bool) (run : ProviderRun) : WorkflowHandlerResult :=
  match parseResult with
  | .error msg =>
    ⟨⟨500, .errorJson "Internal server error" msg⟩, [], true⟩
  | .ok body =>
    match destructureMessages body with
    | .error msg =>
      ⟨⟨500, .errorJson "Internal server error" msg⟩, [], true⟩
    | .ok messages =>
      if !messages.truthy || !messages.isArray then
        ⟨⟨400, .errorOnlyJson "Invalid messages format"⟩, [], false⟩
      else
        let out := chatWorkflow isDevelopment messages claudeCodeConstructs run
        match out.result with
        | .error msg =>
          ⟨⟨500, .errorJson "Internal server error" msg⟩, out.telemetry, true⟩
        | .ok value =>
          ⟨⟨200, .okJson value.response value.finishReason value.usage⟩,
            out.telemetry, false⟩

/-- The chunks an event list yields before its first error (all of them when
there is none). -/
def chunksBeforeError : List StreamEvent → List String
  | [] => []
  | .chunk s :: rest => s :: chunksBeforeError rest
  | .streamError _ :: _ => []

/-- Whether an event list runs to completion without an error. -/
def cleanEvents : List StreamEvent → Bool
  | [] => true
  | .chunk _ :: rest => cleanEvents rest
  | .streamError _ :: _ => false

/-- The class of a selector outcome, forgetting the concrete handle. -/
inductive OutcomeClass where
  | success
  | authenticationError
  | configurationError
deriving Repr, DecidableEq

/-- Map a selector outcome to its class. -/
def SelectorOutcome.cls : SelectorOutcome → OutcomeClass
  | .ok _ => .success
  | .authenticationError => .authenticationError
  | .configurationError => .configurationError

/-- A well-formed example conversation, as the chat UI sends it. -/
def sampleMessages : JsValue :=
  .arr [.obj [("role", .str "user"), ("content", .str "Hi")]]

/-- A well-formed example request body. -/
def sampleBody : JsValue := .obj [("messages", sampleMessages)]

/-- An example provider run emitting two chunks and completing. -/
def sampleRun : ProviderRun := ⟨[.chunk "Hel", .chunk "lo"], "stop", ⟨3, 2, 5⟩⟩

theorem consumeStream_eq (events : List StreamEvent) :
    ∀ (acc : String) (sent : List String),
      consumeStream acc sent events =
        ⟨sent ++ chunksBeforeError events,
         (chunksBeforeError events).foldl (· ++ ·) acc,
         cleanEvents events⟩ := by
  induction events with
  | nil => intro acc sent; simp [consumeStream, chunksBeforeError, cleanEvents]
  | cons e rest ih =>
    intro acc sent
    cases e with
    | chunk s =>
      simp [consumeStream, chunksBeforeError, cleanEvents, ih]
    | streamError msg =>
      simp [consumeStream, chunksBeforeError, cleanEvents]

theorem generateLoop_eq_ok (chunks : List String) :
    ∀ acc : String,
      generateLoop acc (chunks.map .chunk) =
        .ok (chunks.foldl (· ++ ·) acc) := by
  induction chunks with
  | nil => intro acc; simp [generateLoop]
  | cons s rest ih => intro acc; simp [generateLoop, ih]

theorem generateLoop_eq_error (pre : List String) (msg : String)
    (rest : List StreamEvent) :
    ∀ acc : String,
      generateLoop acc (pre.map .chunk ++ .streamError msg :: rest) =
        .error msg := by
  induction pre with
  | nil => intro acc; simp [generateLoop]
  | cons s pre ih => intro acc; simp [generateLoop, ih]

theorem chunksBeforeError_map_chunk (chunks : List String) :
    chunksBeforeError (chunks.map .chunk) = chunks := by
  induction chunks with
  | nil => rfl
  | cons s rest ih => simp [chunksBeforeError, ih]

theorem cleanEvents_map_chunk (chunks : List String) :
    cleanEvents (chunks.map .chunk) = true := by
  induction chunks with
  | nil => rfl
  | cons s rest ih => simp [cleanEvents, ih]

theorem chunksBeforeError_append_error (pre : List String) (msg : String)
    (rest : List StreamEvent) :
    chunksBeforeError (pre.map .chunk ++ .streamError msg :: rest) = pre := by
  induction pre with
  | nil => rfl
  | cons s pre ih => simp [chunksBeforeError, ih]

theorem cleanEvents_append_error (pre : List String) (msg : String)
    (rest : List StreamEvent) :
    cleanEvents (pre.map .chunk ++ .streamError msg :: rest) = false := by
  induction pre with
  | nil => rfl
  | cons s pre ih => simp [cleanEvents, ih]

theorem join_eq_foldl (l : List String) :
    String.join l = l.foldl (· ++ ·) "" := rfl

/-- Whether one string occurs inside another, on the underlying character
lists. -/
def mentions (hay needle : String) : Prop :=
  List.IsInfix needle.toList hay.toList

/-- The 400 result the route returns when validation fails. -/
def invalidRequestResult : HandlerResult :=
  { response := ⟨400, .errorJson "Invalid request" "Messages array is required"⟩,
    delivered := [], telemetry := [], modelUsed := none,
    messagesSent := none, streamErrored := false }

/-- C1, corrected part: for every body from which destructuring succeeds and
yields a `messages` value that is falsy (missing, null, 0, empty string,
false) or not an array, the handler replies 400 with the Invalid request
envelope and neither constructs nor contacts a provider. -/
theorem C1_validation_rejects_missing_or_nonarray
    (body msgs : JsValue) (env : Env) (c : Bool) (st : Option String)
    (run : ProviderRun)
    (hd : destructureMessages body = .ok msgs)
    (hv : msgs.truthy = false ∨ msgs.isArray = false) :
    POST (.ok body) env c st run = invalidRequestResult := by
  have hcond : (!msgs.truthy || !msgs.isArray) = true := by
    rcases hv with h | h <;> simp [h]
  simp [POST, hd, hcond, invalidRequestResult]

/-- C1 witness: a body with no `messages` field is rejected with 400 and no
provider interaction. -/
theorem C1_validation_witness :
    POST (.ok (.obj [])) ⟨false, none⟩ true none sampleRun = invalidRequestResult :=
  C1_validation_rejects_missing_or_nonarray (.obj []) .undefined ⟨false, none⟩
    true none sampleRun rfl (Or.inl rfl)

/-- C1 counterexample: the claim also asserts that an EMPTY `messages` array
is rejected with 400 and no provider contacted, but `![]` is false in
JavaScript, so an empty array passes the `!messages || !Array.isArray`
check: here the handler answers 200 and hands the empty array to
`streamText`. -/
theorem C1_empty_array_reaches_provider :
    (POST (.ok (.obj [("messages", .arr [])])) ⟨false, none⟩ true none
        sampleRun).response.status = 200
    ∧ (POST (.ok (.obj [("messages", .arr [])])) ⟨false, none⟩ true none
        sampleRun).messagesSent = some (.arr []) := ⟨rfl, rfl⟩

/-- C5 counterexample: with the pair (non-production, credential absent)
held fixed, two invocations of the selection logic can disagree in class —
success when the local CLI provider constructs, AuthenticationError when
its constructor throws. The class is therefore not a function of the pair
alone. -/
theorem C5_class_not_pure_in_pair :
    ¬ ((selectModel false none true).cls = (selectModel false none false).cls) := by
  decide

/-- C5, corrected: the selector outcome class is a pure function of the
triple (environment flag, credential truthiness, local-provider
construction success): equal triples give equal classes, whatever the
concrete credential strings are. -/
theorem C5_class_pure_in_triple (e : Bool) (k1 k2 : Option String) (c : Bool)
    (h : keyTruthy k1 = keyTruthy k2) :
    (selectModel e k1 c).cls = (selectModel e k2 c).cls := by
  cases hk : keyTruthy k1 <;> rw [hk] at h <;>
    cases e <;> cases c <;>
      simp [selectModel, SelectorOutcome.cls, hk, h.symm]

/-- C5 witness: two distinct present credentials give the same class. -/
theorem C5_class_pure_witness :
    (selectModel true (some "key-one") true).cls
      = (selectModel true (some "key-two") true).cls :=
  C5_class_pure_in_triple true (some "key-one") (some "key-two") true rfl

/-- On any validated request, the handler records exactly the model handle
the selection logic produced. -/
theorem POST_modelUsed_of_ok (body msgs : JsValue) (env : Env) (c : Bool)
    (st : Option String) (run : ProviderRun) (model : ModelHandle)
    (hd : destructureMessages body = .ok msgs)
    (ht : msgs.truthy = true) (ha : msgs.isArray = true)
    (hs : selectModel env.vercelEnvProduction env.anthropicApiKey c = .ok model) :
    (POST (.ok body) env c st run).modelUsed = some model := by
  cases st with
  | some msg => simp [POST, hd, ht, ha, hs]
  | none =>
    simp [POST, hd, ht, ha, hs]
    split <;> simp

/-- C2: on every validated request the three environment cases behave as the
Model Selector contract states: production with a truthy credential yields
the hosted handle with the fixed model id; non-production yields the local
CLI handle when its constructor succeeds and the 500 Authentication error
envelope when it throws; production without a truthy credential yields the
500 Configuration error envelope whose details mention the missing
ANTHROPIC_API_KEY variable. -/
theorem C2_selector_contract (body msgs : JsValue) (env : Env) (c : Bool)
    (st : Option String) (run : ProviderRun)
    (hd : destructureMessages body = .ok msgs)
    (ht : msgs.truthy = true) (ha : msgs.isArray = true) :
    (env.vercelEnvProduction = true → keyTruthy env.anthropicApiKey = true →
      (POST (.ok body) env c st run).modelUsed
        = some (.anthropicModel "claude-sonnet-4-5-20250929" env.anthropicApiKey))
    ∧ (env.vercelEnvProduction = false → c = true →
      (POST (.ok body) env c st run).modelUsed
        = some (.claudeCodeModel "sonnet" "claude_code" ["user", "project", "local"]))
    ∧ (env.vercelEnvProduction = false → c = false →
      (POST (.ok body) env c st run).response
        = ⟨500, .errorJson "Authentication error" authErrorDetails⟩)
    ∧ (env.vercelEnvProduction = true → keyTruthy env.anthropicApiKey = false →
      ((POST (.ok body) env c st run).response
          = ⟨500, .errorJson "Configuration error" configErrorDetails⟩
        ∧ mentions configErrorDetails "ANTHROPIC_API_KEY")) := by
  obtain ⟨p, k⟩ := env
  refine ⟨?_, ?_, ?_, ?_⟩ <;> intro h1 h2
  · subst h1
    exact POST_modelUsed_of_ok body msgs ⟨true, k⟩ c st run _ hd ht ha
      (by simp [selectModel, h2])
  · subst h1; subst h2
    exact POST_modelUsed_of_ok body msgs ⟨false, k⟩ true st run _ hd ht ha
      (by simp [selectModel])
  · subst h1; subst h2
    simp [POST, hd, ht, ha, selectModel]
  · subst h1
    refine ⟨?_, by unfold mentions; decide⟩
    simp [POST, hd, ht, ha, selectModel, h2]

/-- C2 witness: the production-with-credential instance of the contract. -/
theorem C2_selector_contract_witness :
    ((true : Bool) = true → keyTruthy (some "sk-test") = true →
      (POST (.ok sampleBody) ⟨true, some "sk-test"⟩ true none sampleRun).modelUsed
        = some (.anthropicModel "claude-sonnet-4-5-20250929" (some "sk-test")))
    ∧ ((true : Bool) = false → (true : Bool) = true →
      (POST (.ok sampleBody) ⟨true, some "sk-test"⟩ true none sampleRun).modelUsed
        = some (.claudeCodeModel "sonnet" "claude_code" ["user", "project", "local"]))
    ∧ ((true : Bool) = false → (true : Bool) = false →
      (POST (.ok sampleBody) ⟨true, some "sk-test"⟩ true none sampleRun).response
        = ⟨500, .errorJson "Authentication error" authErrorDetails⟩)
    ∧ ((true : Bool) = true → keyTruthy (some "sk-test") = false →
      ((POST (.ok sampleBody) ⟨true, some "sk-test"⟩ true none sampleRun).response
          = ⟨500, .errorJson "Configuration error" configErrorDetails⟩
        ∧ mentions configErrorDetails "ANTHROPIC_API_KEY")) :=
  C2_selector_contract sampleBody sampleMessages ⟨true, some "sk-test"⟩ true
    none sampleRun rfl rfl rfl

/-- An event list that completes cleanly is exactly its chunk sequence. -/
theorem generateLoop_clean (events : List StreamEvent)
    (h : cleanEvents events = true) :
    ∀ acc, generateLoop acc events
      = .ok ((chunksBeforeError events).foldl (· ++ ·) acc) := by
  induction events with
  | nil => intro acc; simp [generateLoop, chunksBeforeError]
  | cons e rest ih =>
    intro acc
    cases e with
    | chunk s =>
      have hr : cleanEvents rest = true := by simpa [cleanEvents] using h
      simp [generateLoop, chunksBeforeError, ih hr]
    | streamError m => simp [cleanEvents] at h

/-- Full evaluation of the route handler on the sample valid request in the
non-production environment: the stream is forwarded chunk for chunk, the
text accumulated, telemetry emitted exactly on clean completion. -/
theorem POST_sampleBody_stream (run : ProviderRun) :
    POST (.ok sampleBody) ⟨false, none⟩ true none run =
      { response := ⟨200, .stream (String.join (chunksBeforeError run.events))⟩,
        delivered := chunksBeforeError run.events,
        telemetry :=
          if cleanEvents run.events then
            [⟨(String.join (chunksBeforeError run.events)).length,
              some run.finishReason, some run.usage⟩]
          else [],
        modelUsed := some (.claudeCodeModel "sonnet" "claude_code"
          ["user", "project", "local"]),
        messagesSent := some sampleMessages,
        streamErrored := !cleanEvents run.events } := by
  have hd : destructureMessages sampleBody = Except.ok sampleMessages := rfl
  have ht : sampleMessages.truthy = true := rfl
  have ha : sampleMessages.isArray = true := rfl
  have hs : selectModel false none true
      = .ok (.claudeCodeModel "sonnet" "claude_code" ["user", "project", "local"]) := rfl
  have h := consumeStream_eq run.events "" []
  cases hc : cleanEvents run.events <;>
    simp [POST, hd, ht, ha, hs, h, hc, join_eq_foldl]

/-- C3: when the provider emits a finite ordered chunk sequence and then
completes, the caller receives exactly those chunks in order, the response
body is their concatenation, and the workflow `generateResponse` step
returns the same concatenation with the completion metadata. -/
theorem C3_streaming_fidelity (chunks : List String) (fr : String) (u : Usage) :
    (POST (.ok sampleBody) ⟨false, none⟩ true none
        ⟨chunks.map .chunk, fr, u⟩).delivered = chunks
    ∧ (POST (.ok sampleBody) ⟨false, none⟩ true none
        ⟨chunks.map .chunk, fr, u⟩).response
        = ⟨200, .stream (String.join chunks)⟩
    ∧ generateResponse ⟨chunks.map .chunk, fr, u⟩
        = .ok ⟨String.join chunks, some fr, some u⟩ := by
  have h := POST_sampleBody_stream ⟨chunks.map .chunk, fr, u⟩
  refine ⟨?_, ?_, ?_⟩
  · rw [h]; simp [chunksBeforeError_map_chunk]
  · rw [h]; simp [chunksBeforeError_map_chunk]
  · simp [generateResponse, generateLoop_eq_ok, join_eq_foldl]

/-- C3 sanity instance: the chunks Hel, lo yield the body Hello. -/
theorem C3_hello_instance :
    (POST (.ok sampleBody) ⟨false, none⟩ true none sampleRun).response
      = ⟨200, .stream "Hello"⟩ := rfl

/-- C4: on every provider run that completes cleanly, the route emits exactly
one telemetry record whose textLength is the length of the concatenation of
the chunks streamed to the caller, and the workflow logMetrics step likewise
logs exactly one record with the length of the generated text. -/
theorem C4_telemetry_once (run : ProviderRun)
    (h : cleanEvents run.events = true) :
    (POST (.ok sampleBody) ⟨false, none⟩ true none run).telemetry
      = [⟨(String.join ((POST (.ok sampleBody) ⟨false, none⟩ true none
            run).delivered)).length,
          some run.finishReason, some run.usage⟩]
    ∧ (chatWorkflow true sampleMessages true run).telemetry
      = [⟨(String.join (chunksBeforeError run.events)).length,
          some run.finishReason, some run.usage⟩] := by
  have hp := POST_sampleBody_stream run
  constructor
  · rw [hp]; simp [h]
  · simp [chatWorkflow, generateResponse, generateLoop_clean run.events h,
      join_eq_foldl]

/-- C4 witness: the sample two-chunk run emits one record of length 5. -/
theorem C4_telemetry_once_witness :
    (POST (.ok sampleBody) ⟨false, none⟩ true none sampleRun).telemetry
      = [⟨(String.join ((POST (.ok sampleBody) ⟨false, none⟩ true none
            sampleRun).delivered)).length,
          some sampleRun.finishReason, some sampleRun.usage⟩]
    ∧ (chatWorkflow true sampleMessages true sampleRun).telemetry
      = [⟨(String.join (chunksBeforeError sampleRun.events)).length,
          some sampleRun.finishReason, some sampleRun.usage⟩] :=
  C4_telemetry_once sampleRun rfl

/-- C6: when the provider errors after some chunks, the caller receives
exactly the chunks preceding the error and nothing after it, no success
telemetry is logged, the data stream is terminated as errored, and the
workflow route records the request as failed with a 500 envelope and no
telemetry. -/
theorem C6_midstream_error (pre : List String) (msg : String)
    (rest : List StreamEvent) (fr : String) (u : Usage) :
    (POST (.ok sampleBody) ⟨false, none⟩ true none
        ⟨pre.map .chunk ++ .streamError msg :: rest, fr, u⟩).delivered = pre
    ∧ (POST (.ok sampleBody) ⟨false, none⟩ true none
        ⟨pre.map .chunk ++ .streamError msg :: rest, fr, u⟩).telemetry = []
    ∧ (POST (.ok sampleBody) ⟨false, none⟩ true none
        ⟨pre.map .chunk ++ .streamError msg :: rest, fr, u⟩).streamErrored = true
    ∧ workflowPOST (.ok sampleBody) true true
        ⟨pre.map .chunk ++ .streamError msg :: rest, fr, u⟩
      = ⟨⟨500, .errorJson "Internal server error" msg⟩, [], true⟩ := by
  have hp := POST_sampleBody_stream ⟨pre.map .chunk ++ .streamError msg :: rest, fr, u⟩
  have hd : destructureMessages sampleBody = Except.ok sampleMessages := rfl
  have ht : sampleMessages.truthy = true := rfl
  have ha : sampleMessages.isArray = true := rfl
  refine ⟨?_, ?_, ?_, ?_⟩
  · rw [hp]; simp [chunksBeforeError_append_error]
  · rw [hp]; simp [cleanEvents_append_error]
  · rw [hp]; simp [cleanEvents_append_error]
  · simp [workflowPOST, hd, ht, ha, chatWorkflow, generateResponse,
      generateLoop_eq_error]

/-- Modelled from the spec (§6, §7): a failing reply is a JSON envelope with
an `error` string drawn from the four-kind taxonomy and a `details` string,
under a 400 or 500 status. -/
def errorEnvelope (r : Response) : Prop :=
  (r.status = 400 ∨ r.status = 500)
    ∧ ∃ e d, r.body = .errorJson e d
      ∧ e ∈ (["Invalid request", "Authentication error", "Configuration error",
          "Failed to process chat request"] : List String)

/-- C7: whatever the request, environment, provider-construction outcome,
synchronous exception of streamText and provider run, the handler returns
either the 200 streamed response or a taxonomy error envelope — no error
kind escapes the request boundary unhandled. -/
theorem C7_all_errors_enveloped (pr : Except String JsValue) (env : Env)
    (c : Bool) (st : Option String) (run : ProviderRun) :
    (∃ t, (POST pr env c st run).response = ⟨200, .stream t⟩)
    ∨ errorEnvelope (POST pr env c st run).response := by
  cases pr with
  | error msg => right; simp [POST, errorEnvelope]
  | ok body =>
    cases hdm : destructureMessages body with
    | error msg => right; simp [POST, hdm, errorEnvelope]
    | ok msgs =>
      by_cases hv : (!msgs.truthy || !msgs.isArray) = true
      · right; simp [POST, hdm, hv, errorEnvelope]
      · have hv' : (!msgs.truthy || !msgs.isArray) = false := by simpa using hv
        cases hsm : selectModel env.vercelEnvProduction env.anthropicApiKey c with
        | authenticationError => right; simp [POST, hdm, hv', hsm, errorEnvelope]
        | configurationError => right; simp [POST, hdm, hv', hsm, errorEnvelope]
        | ok model =>
          cases st with
          | some msg => right; simp [POST, hdm, hv', hsm, errorEnvelope]
          | none =>
            left
            refine ⟨(consumeStream "" [] run.events).accumulatedText, ?_⟩
            cases hc : (consumeStream "" [] run.events).completedCleanly <;>
              simp [POST, hdm, hv', hsm, hc]

/-- C9: validation accepts every array whatever its elements contain — the
handler never answers 400 for an array-valued `messages`, and whenever the
provider is invoked it receives exactly that array, unmodified; in the
non-production environment with a working CLI provider it is always
invoked with it. -/
theorem C9_any_array_forwarded (xs : List JsValue) (env : Env) (c : Bool)
    (st : Option String) (run : ProviderRun) :
    (POST (.ok (.obj [("messages", .arr xs)])) env c st run).response.status ≠ 400
    ∧ ((POST (.ok (.obj [("messages", .arr xs)])) env c st run).messagesSent = none
       ∨ (POST (.ok (.obj [("messages", .arr xs)])) env c st run).messagesSent
           = some (.arr xs))
    ∧ (POST (.ok (.obj [("messages", .arr xs)])) ⟨false, none⟩ true none
        run).messagesSent = some (.arr xs) := by
  have hd : destructureMessages (.obj [("messages", .arr xs)])
      = Except.ok (.arr xs) := rfl
  refine ⟨?_, ?_, ?_⟩
  · cases hsm : selectModel env.vercelEnvProduction env.anthropicApiKey c with
    | ok model =>
      cases st with
      | some msg => simp [POST, hd, JsValue.truthy, JsValue.isArray, hsm]
      | none =>
        simp [POST, hd, JsValue.truthy, JsValue.isArray, hsm]
        split <;> simp
    | authenticationError =>
      cases st <;> simp [POST, hd, JsValue.truthy, JsValue.isArray, hsm]
    | configurationError =>
      cases st <;> simp [POST, hd, JsValue.truthy, JsValue.isArray, hsm]
  · cases hsm : selectModel env.vercelEnvProduction env.anthropicApiKey c with
    | ok model =>
      cases st with
      | some msg => simp [POST, hd, JsValue.truthy, JsValue.isArray, hsm]
      | none =>
        simp [POST, hd, JsValue.truthy, JsValue.isArray, hsm]
        split <;> simp
    | authenticationError =>
      cases st <;> simp [POST, hd, JsValue.truthy, JsValue.isArray, hsm]
    | configurationError =>
      cases st <;> simp [POST, hd, JsValue.truthy, JsValue.isArray, hsm]
  · cases hc : (consumeStream "" [] run.events).completedCleanly <;>
      simp [POST, hd, JsValue.truthy, JsValue.isArray, selectModel, keyTruthy, hc]

/-- In the non-production environment the selection logic ignores the
credential entirely. -/
theorem selectModel_nonproduction (k : Option String) (c : Bool) :
    selectModel false k c =
      if c then
        .ok (.claudeCodeModel "sonnet" "claude_code" ["user", "project", "local"])
      else
        .authenticationError := by
  simp [selectModel]

/-- C10: in every non-production environment the whole observable handler
behaviour is identical for any two credential values, and the handle the
request uses (when one exists) embeds no credential. -/
theorem C10_nonproduction_credential_independent (k1 k2 : Option String)
    (pr : Except String JsValue) (c : Bool) (st : Option String)
    (run : ProviderRun) :
    POST pr ⟨false, k1⟩ c st run = POST pr ⟨false, k2⟩ c st run
    ∧ ((POST pr ⟨false, k1⟩ c st run).modelUsed.map
        ModelHandle.credential).join = none := by
  constructor
  · cases pr with
    | error msg => rfl
    | ok body =>
      cases hdm : destructureMessages body with
      | error msg => simp [POST, hdm]
      | ok msgs =>
        by_cases hv : (!msgs.truthy || !msgs.isArray) = true
        · simp [POST, hdm, hv]
        · have hv' : (!msgs.truthy || !msgs.isArray) = false := by simpa using hv
          simp [POST, hdm, hv', selectModel_nonproduction]
  · cases pr with
    | error msg => rfl
    | ok body =>
      cases hdm : destructureMessages body with
      | error msg => simp [POST, hdm]
      | ok msgs =>
        by_cases hv : (!msgs.truthy || !msgs.isArray) = true
        · simp [POST, hdm, hv]
        · have hv' : (!msgs.truthy || !msgs.isArray) = false := by simpa using hv
          cases c with
          | false => simp [POST, hdm, hv', selectModel_nonproduction]
          | true =>
            cases st with
            | some msg =>
              simp [POST, hdm, hv', selectModel_nonproduction,
                ModelHandle.credential]
            | none =>
              simp [POST, hdm, hv', selectModel_nonproduction]
              split <;> simp [ModelHandle.credential]

/-- C8: a request body that is not valid JSON makes `req.json()` throw inside
the try block, so the handler answers through the generic catch-all: a 500
with the `Failed to process chat request` envelope carrying the parse error
message, never the 400 Invalid request reply. -/
theorem C8_bad_json_hits_catch_all (msg : String) (env : Env) (c : Bool)
    (st : Option String) (run : ProviderRun) :
    POST (.error msg) env c st run =
      { response := ⟨500, .errorJson "Failed to process chat request" msg⟩,
        delivered := [], telemetry := [], modelUsed := none,
        messagesSent := none, streamErrored := false } := rfl

end AgentPanel
